import Mathlib

/-!
Verification of the Weekend Wizard agent (agent_fun.py / server_fun.py)

Shallow embedding of the Python sources:

* `agent_fun.py`: JSON extraction (`_extract_json`), the decision decoder
  (`llm_json`), the console sentinel check and the bounded ReAct agent loop
  inside `main`.
* `server_fun.py`: the HTTP retry helper (`_get_with_retry`) and the tools
  `book_recs` and `trivia`.

External collaborators (the Ollama model, the MCP tool transport, the remote
HTTP APIs, `html.unescape`) are modelled as oracle parameters; Python
exceptions are modelled with `Except`.  Machine floats never influence any
verified property, so a JSON float is carried as its source literal.
-/

namespace WeekendWizard

/-! Python string primitives (ASCII fragment) -/

/-- The whitespace characters recognised by Python's `str.strip`
(ASCII fragment: space, tab, newline, carriage return, vertical tab,
form feed). -/
def pyWs (c : Char) : Bool :=
  c = ' ' || c = '\t' || c = '\n' || c = '\r' || c = '\x0b' || c = '\x0c'

def dropLeadingWs : List Char → List Char
  | [] => []
  | c :: rest => if pyWs c then dropLeadingWs rest else c :: rest

/-- Python str.strip on a character list: drop leading and trailing whitespace. -/
def pyStripChars (cs : List Char) : List Char :=
  dropLeadingWs ((dropLeadingWs cs.reverse).reverse)

/-- Python str.strip. -/
def pyStrip (s : String) : String :=
  ⟨pyStripChars s.data⟩

/-- ASCII `str.lower()`. -/
def pyLowerChar (c : Char) : Char :=
  if 'A' ≤ c && c ≤ 'Z' then Char.ofNat (c.toNat + 32) else c

def pyLower (s : String) : String :=
  ⟨s.data.map pyLowerChar⟩

/-! JSON values

A Python value as produced by `json.loads`: `None`, booleans, ints, floats,
strings, lists and string-keyed dicts.  A float is kept as its literal text;
no verified property inspects a float. -/

inductive JVal where
  | jnull
  | jbool (b : Bool)
  | jint (n : Int)
  | jfloat (lit : String)
  | jstr (s : String)
  | jarr (elems : List JVal)
  | jobj (fields : List (String × JVal))

open JVal

mutual

def jvalBeq : JVal → JVal → Bool
  | jnull, jnull => true
  | jbool a, jbool b => a = b
  | jint a, jint b => a = b
  | jfloat a, jfloat b => a = b
  | jstr a, jstr b => a = b
  | jarr xs, jarr ys => jvalListBeq xs ys
  | jobj fs, jobj gs => jvalFieldsBeq fs gs
  | _, _ => false

def jvalListBeq : List JVal → List JVal → Bool
  | [], [] => true
  | x :: xs, y :: ys => jvalBeq x y && jvalListBeq xs ys
  | _, _ => false

def jvalFieldsBeq : List (String × JVal) → List (String × JVal) → Bool
  | [], [] => true
  | (k, v) :: fs, (k', v') :: gs => k = k' && jvalBeq v v' && jvalFieldsBeq fs gs
  | _, _ => false

end

mutual

def jvalBeq_iff : ∀ a b : JVal, jvalBeq a b = true ↔ a = b
  | jnull, jnull => by simp [jvalBeq]
  | jbool a, jbool b => by simp [jvalBeq]
  | jint a, jint b => by simp [jvalBeq]
  | jfloat a, jfloat b => by simp [jvalBeq]
  | jstr a, jstr b => by simp [jvalBeq]
  | jarr xs, jarr ys => by simp [jvalBeq, jvalListBeq_iff xs ys]
  | jobj fs, jobj gs => by simp [jvalBeq, jvalFieldsBeq_iff fs gs]
  | jnull, jbool _ | jnull, jint _ | jnull, jfloat _ | jnull, jstr _
  | jnull, jarr _ | jnull, jobj _ | jbool _, jnull | jbool _, jint _
  | jbool _, jfloat _ | jbool _, jstr _ | jbool _, jarr _ | jbool _, jobj _
  | jint _, jnull | jint _, jbool _ | jint _, jfloat _ | jint _, jstr _
  | jint _, jarr _ | jint _, jobj _ | jfloat _, jnull | jfloat _, jbool _
  | jfloat _, jint _ | jfloat _, jstr _ | jfloat _, jarr _ | jfloat _, jobj _
  | jstr _, jnull | jstr _, jbool _ | jstr _, jint _ | jstr _, jfloat _
  | jstr _, jarr _ | jstr _, jobj _ | jarr _, jnull | jarr _, jbool _
  | jarr _, jint _ | jarr _, jfloat _ | jarr _, jstr _ | jarr _, jobj _
  | jobj _, jnull | jobj _, jbool _ | jobj _, jint _ | jobj _, jfloat _
  | jobj _, jstr _ | jobj _, jarr _ => by simp [jvalBeq]

def jvalListBeq_iff : ∀ xs ys : List JVal, jvalListBeq xs ys = true ↔ xs = ys
  | [], [] => by simp [jvalListBeq]
  | [], _ :: _ => by simp [jvalListBeq]
  | _ :: _, [] => by simp [jvalListBeq]
  | x :: xs, y :: ys => by
    simp [jvalListBeq, jvalBeq_iff x y, jvalListBeq_iff xs ys]

def jvalFieldsBeq_iff :
    ∀ fs gs : List (String × JVal), jvalFieldsBeq fs gs = true ↔ fs = gs
  | [], [] => by simp [jvalFieldsBeq]
  | [], _ :: _ => by simp [jvalFieldsBeq]
  | _ :: _, [] => by simp [jvalFieldsBeq]
  | (k, v) :: fs, (k', v') :: gs => by
    simp [jvalFieldsBeq, jvalBeq_iff v v', jvalFieldsBeq_iff fs gs, and_assoc]

end

instance : DecidableEq JVal := fun a b => decidable_of_iff _ (jvalBeq_iff a b)

/-- First binding of a key in a dict (keys are unique after
`insertOrReplace`, mirroring a Python `dict`). -/
def dictLookup (fields : List (String × JVal)) (k : String) : Option JVal :=
  match fields with
  | [] => none
  | (k', v) :: rest => if k' = k then some v else dictLookup rest k

/-- Python `dict` insertion: an existing key keeps its position and gets the
new value; a new key is appended. -/
def insertOrReplace (fields : List (String × JVal)) (k : String) (v : JVal) :
    List (String × JVal) :=
  match fields with
  | [] => [(k, v)]
  | (k', v') :: rest =>
    if k' = k then (k', v) :: rest else (k', v') :: insertOrReplace rest k v

/-! `json.loads`

A fuel-indexed recursive-descent parser for the JSON accepted by Python's
`json.loads` (strict mode, `NaN`/`Infinity` extensions included). -/

/-- JSON whitespace (space, tab, newline, carriage return). -/
def jsonWs (c : Char) : Bool :=
  c = ' ' || c = '\t' || c = '\n' || c = '\r'

def skipJsonWs : List Char → List Char
  | [] => []
  | c :: rest => if jsonWs c then skipJsonWs rest else c :: rest

def isDigit (c : Char) : Bool := '0' ≤ c && c ≤ '9'

def digitVal (c : Char) : Nat := c.toNat - '0'.toNat

def hexVal (c : Char) : Option Nat :=
  let n := c.toNat
  if 48 ≤ n ∧ n ≤ 57 then some (n - 48)
  else if 97 ≤ n ∧ n ≤ 102 then some (n - 87)
  else if 65 ≤ n ∧ n ≤ 70 then some (n - 55)
  else none

def parseHex4 : List Char → Option (Nat × List Char)
  | a :: b :: c :: d :: rest =>
    match hexVal a, hexVal b, hexVal c, hexVal d with
    | some x, some y, some z, some w => some (((x * 16 + y) * 16 + z) * 16 + w, rest)
    | _, _, _, _ => none
  | _ => none

/-- Body of a JSON string literal, after the opening quote.  Returns the
decoded characters and the input following the closing quote.  A `\uXXXX`
surrogate pair is combined; a lone surrogate (which Python would keep as a
surrogate code unit, unrepresentable in `Char`) becomes U+FFFD. -/
def parseJsonStr (fuel : Nat) (cs : List Char) : Option (List Char × List Char) :=
  match fuel with
  | 0 => none
  | fuel + 1 =>
    match cs with
    | [] => none
    | '"' :: rest => some ([], rest)
    | '\\' :: esc =>
      match esc with
      | '"' :: rest => (parseJsonStr fuel rest).map (fun (s, r) => ('"' :: s, r))
      | '\\' :: rest => (parseJsonStr fuel rest).map (fun (s, r) => ('\\' :: s, r))
      | '/' :: rest => (parseJsonStr fuel rest).map (fun (s, r) => ('/' :: s, r))
      | 'b' :: rest => (parseJsonStr fuel rest).map (fun (s, r) => ('\x08' :: s, r))
      | 'f' :: rest => (parseJsonStr fuel rest).map (fun (s, r) => ('\x0c' :: s, r))
      | 'n' :: rest => (parseJsonStr fuel rest).map (fun (s, r) => ('\n' :: s, r))
      | 'r' :: rest => (parseJsonStr fuel rest).map (fun (s, r) => ('\r' :: s, r))
      | 't' :: rest => (parseJsonStr fuel rest).map (fun (s, r) => ('\t' :: s, r))
      | 'u' :: rest =>
        match parseHex4 rest with
        | none => none
        | some (n, rest') =>
          if 0xd800 ≤ n && n ≤ 0xdbff then
            -- high surrogate: look for a following low surrogate escape
            match rest' with
            | '\\' :: 'u' :: rest'' =>
              match parseHex4 rest'' with
              | some (m, rest''') =>
                if 0xdc00 ≤ m && m ≤ 0xdfff then
                  let code := 0x10000 + (n - 0xd800) * 0x400 + (m - 0xdc00)
                  (parseJsonStr fuel rest''').map
                    (fun (s, r) => (Char.ofNat code :: s, r))
                else
                  (parseJsonStr fuel rest').map (fun (s, r) => ('�' :: s, r))
              | none =>
                (parseJsonStr fuel rest').map (fun (s, r) => ('�' :: s, r))
            | _ =>
              (parseJsonStr fuel rest').map (fun (s, r) => ('�' :: s, r))
          else if 0xdc00 ≤ n && n ≤ 0xdfff then
            (parseJsonStr fuel rest').map (fun (s, r) => ('�' :: s, r))
          else
            (parseJsonStr fuel rest').map (fun (s, r) => (Char.ofNat n :: s, r))
      | _ => none
    | c :: rest =>
      if c.toNat < 0x20 then none   -- strict mode: raw control characters refused
      else (parseJsonStr fuel rest).map (fun (s, r) => (c :: s, r))

def takeDigits : List Char → (List Char × List Char)
  | [] => ([], [])
  | c :: rest =>
    if isDigit c then
      let (ds, r) := takeDigits rest
      (c :: ds, r)
    else ([], c :: rest)

def digitsToNat (ds : List Char) : Nat :=
  ds.foldl (fun acc c => acc * 10 + digitVal c) 0

/-- JSON number per Python's `NUMBER_RE`:
`(-?(?:0|[1-9]\d*))(\.\d+)?([eE][-+]?\d+)?`.  An integer literal yields
`jint`; a fractional part or exponent yields `jfloat` carrying the literal. -/
def parseJsonNum (cs : List Char) : Option (JVal × List Char) :=
  let (neg, cs₁) := match cs with
    | '-' :: rest => (true, rest)
    | _ => (false, cs)
  match cs₁ with
  | [] => none
  | c :: _ =>
    if ¬ isDigit c then none
    else
      let (intDs, cs₂) :=
        if c = '0' then ([c], cs₁.tail)
        else takeDigits cs₁
      let (fracDs, cs₃) := match cs₂ with
        | '.' :: rest =>
          match takeDigits rest with
          | ([], _) => ([], cs₂)
          | (ds, r) => ('.' :: ds, r)
        | _ => ([], cs₂)
      let (expDs, cs₄) := match cs₃ with
        | e :: rest =>
          if e = 'e' || e = 'E' then
            let (sgn, rest') := match rest with
              | '+' :: r => (['+'], r)
              | '-' :: r => (['-'], r)
              | _ => ([], rest)
            match takeDigits rest' with
            | ([], _) => ([], cs₃)
            | (ds, r) => (e :: sgn ++ ds, r)
          else ([], cs₃)
        | [] => ([], cs₃)
      if fracDs = [] && expDs = [] then
        let n : Int := Int.ofNat (digitsToNat intDs)
        some (jint (if neg then -n else n), cs₄)
      else
        let lit : List Char := (if neg then ['-'] else []) ++ intDs ++ fracDs ++ expDs
        some (jfloat ⟨lit⟩, cs₄)

/-- Consume a literal keyword. -/
def consumeLit : List Char → List Char → Option (List Char)
  | [], cs => some cs
  | k :: ks, c :: cs => if c = k then consumeLit ks cs else none
  | _ :: _, [] => none

mutual

/-- One JSON value, starting at a non-whitespace position. -/
def parseJsonVal (fuel : Nat) (cs : List Char) : Option (JVal × List Char) :=
  match fuel with
  | 0 => none
  | fuel + 1 =>
    match cs with
    | [] => none
    | '{' :: rest => parseJsonObj fuel (skipJsonWs rest)
    | '[' :: rest => parseJsonArr fuel (skipJsonWs rest)
    | '"' :: rest => (parseJsonStr fuel rest).map (fun (s, r) => (jstr ⟨s⟩, r))
    | 't' :: rest => (consumeLit ['r', 'u', 'e'] rest).map (fun r => (jbool true, r))
    | 'f' :: rest => (consumeLit ['a', 'l', 's', 'e'] rest).map (fun r => (jbool false, r))
    | 'n' :: rest => (consumeLit ['u', 'l', 'l'] rest).map (fun r => (jnull, r))
    | 'N' :: rest => (consumeLit ['a', 'N'] rest).map (fun r => (jfloat "NaN", r))
    | 'I' :: rest =>
      (consumeLit ['n', 'f', 'i', 'n', 'i', 't', 'y'] rest).map
        (fun r => (jfloat "Infinity", r))
    | '-' :: 'I' :: rest =>
      (consumeLit ['n', 'f', 'i', 'n', 'i', 't', 'y'] rest).map
        (fun r => (jfloat "-Infinity", r))
    | _ => parseJsonNum cs

/-- Members of an object, positioned after `{` and any whitespace. -/
def parseJsonObj (fuel : Nat) (cs : List Char) : Option (JVal × List Char) :=
  match fuel with
  | 0 => none
  | fuel + 1 =>
    match cs with
    | '}' :: rest => some (jobj [], rest)
    | _ => parseJsonMembers fuel cs []

def parseJsonMembers (fuel : Nat) (cs : List Char)
    (acc : List (String × JVal)) : Option (JVal × List Char) :=
  match fuel with
  | 0 => none
  | fuel + 1 =>
    match cs with
    | '"' :: rest =>
      match parseJsonStr fuel rest with
      | none => none
      | some (key, afterKey) =>
        match skipJsonWs afterKey with
        | ':' :: afterColon =>
          match parseJsonVal fuel (skipJsonWs afterColon) with
          | none => none
          | some (v, afterVal) =>
            let acc' := insertOrReplace acc ⟨key⟩ v
            match skipJsonWs afterVal with
            | ',' :: afterComma => parseJsonMembers fuel (skipJsonWs afterComma) acc'
            | '}' :: rest' => some (jobj acc', rest')
            | _ => none
        | _ => none
    | _ => none

/-- Elements of an array, positioned after `[` and any whitespace. -/
def parseJsonArr (fuel : Nat) (cs : List Char) : Option (JVal × List Char) :=
  match fuel with
  | 0 => none
  | fuel + 1 =>
    match cs with
    | ']' :: rest => some (jarr [], rest)
    | _ => parseJsonElems fuel cs []

def parseJsonElems (fuel : Nat) (cs : List Char)
    (acc : List JVal) : Option (JVal × List Char) :=
  match fuel with
  | 0 => none
  | fuel + 1 =>
    match parseJsonVal fuel cs with
    | none => none
    | some (v, afterVal) =>
      match skipJsonWs afterVal with
      | ',' :: afterComma => parseJsonElems fuel (skipJsonWs afterComma) (acc ++ [v])
      | ']' :: rest' => some (jarr (acc ++ [v]), rest')
      | _ => none

end

/-- Model of json.loads on a character list: parse one value surrounded only by
whitespace; anything else is a `JSONDecodeError`, i.e. `none`. -/
def jsonLoadsChars (cs : List Char) : Option JVal :=
  match parseJsonVal (cs.length + 1) (skipJsonWs cs) with
  | some (v, rest) => if skipJsonWs rest = [] then some v else none
  | none => none

/-- Model of json.loads on a string. -/
def jsonLoads (s : String) : Option JVal :=
  jsonLoadsChars s.data

/-! `_extract_json` (agent_fun.py)

Stage 1 is a direct `json.loads` of the stripped text.  Stage 2 is the regex
search for a fenced block.  Stage 3 scans every `{` position left to right,
cuts the substring at the first point where brace depth returns to zero and
tries to parse it; on parse failure that start position is abandoned. -/

/-- The backquote character (code point 96) used by markdown fences. -/
def tick : Char := Char.ofNat 96

/-- Consume a literal ` ``` `. -/
def consumeTicks : List Char → Option (List Char)
  | a :: b :: c :: rest =>
    if a = tick && b = tick && c = tick then some rest else none
  | _ => none

/-- After the closing `}` of the candidate group, the regex requires
`` \s*``` ``; since every backtracking position inside a `\s*` run is a
whitespace character (never a backquote), this is equivalent to skipping the
maximal whitespace run and demanding ` ``` `. -/
def tailTicks (cs : List Char) : Bool :=
  (consumeTicks (dropLeadingWs cs)).isSome

/-- The lazy `.*?\}` of the fence regex: the earliest `}` whose tail matches
`` \s*``` `` closes the group; a `}` with a failing tail is swallowed by
`.*?`. -/
def lazyClose : List Char → List Char → Option (List Char)
  | [], _ => none
  | c :: rest, acc =>
    if c = '}' && tailTicks rest then some (acc ++ [c])
    else lazyClose rest (acc ++ [c])

/-- Pattern piece `\s*` then the group `(\{.*?\})`: skip the maximal whitespace run (any
shorter run would leave the pattern looking at a whitespace character, not
`{`), demand `{`, then find the lazy closing brace. -/
def fenceBody (cs : List Char) : Option (List Char) :=
  match dropLeadingWs cs with
  | c :: rest => if c = '{' then lazyClose rest ['{'] else none
  | [] => none

/-- One attempt of `` ```(?:json)?\s*(\{.*?\})\s*``` `` anchored at the head
of `cs`: the optional `json` is greedy, so the variant consuming it is tried
first. -/
def fenceFrom (cs : List Char) : Option (List Char) :=
  match consumeTicks cs with
  | none => none
  | some afterTicks =>
    let withJson :=
      match afterTicks with
      | 'j' :: 's' :: 'o' :: 'n' :: rest => fenceBody rest
      | _ => none
    match withJson with
    | some g => some g
    | none => fenceBody afterTicks

/-- Like re.search: the leftmost start position wins. -/
def fenceFind : List Char → Option (List Char)
  | [] => none
  | c :: rest =>
    match fenceFrom (c :: rest) with
    | some g => some g
    | none => fenceFind rest

/-- Stage 2 as a whole: a matched fence whose group fails `json.loads`
falls through to stage 3, exactly like the `except: pass`. -/
def fenceResult (cs : List Char) : Option JVal :=
  (fenceFind cs).bind jsonLoadsChars

/-- The inner loop of stage 3: walk from a start position keeping a brace
depth counter (Python starts it at 0 and the start character is `{`);
the candidate substring ends at the first `}` that brings the depth to 0. -/
def braceGo : List Char → Int → List Char → Option (List Char)
  | [], _, _ => none
  | c :: rest, depth, acc =>
    if c = '{' then braceGo rest (depth + 1) (acc ++ [c])
    else if c = '}' then
      if depth - 1 = 0 then some (acc ++ [c])
      else braceGo rest (depth - 1) (acc ++ [c])
    else braceGo rest depth (acc ++ [c])

/-- What stage 3 does at one start position: only a `{` starts a candidate;
the candidate is cut by `braceGo` and must survive `json.loads` (a failure
abandons this start position — the `break`). -/
def candParse (cs : List Char) : Option JVal :=
  match cs with
  | '{' :: _ =>
    match braceGo cs 0 [] with
    | some cand => jsonLoadsChars cand
    | none => none
  | _ => none

/-- Stage 3: try the start positions in left-to-right order, first parse
success wins. -/
def scanFrom : List Char → Option JVal
  | [] => none
  | c :: rest =>
    match candParse (c :: rest) with
    | some v => some v
    | none => scanFrom rest

/-- Model of `_extract_json`: strip, direct parse, fenced block, brace scan, and the
empty dict on total failure. -/
def extract_json (t : String) : JVal :=
  match jsonLoadsChars (pyStripChars t.data) with
  | some v => v
  | none =>
    match fenceResult (pyStripChars t.data) with
    | some v => v
    | none =>
      match scanFrom (pyStripChars t.data) with
      | some v => v
      | none => jobj []

/-! Python runtime errors and the `in` operator -/

inductive PyErr where
  | typeError (msg : String)
  | keyError (key : String)
  | attrError (msg : String)
  | indexError (msg : String)
  deriving DecidableEq

instance {ε α : Type} [DecidableEq ε] [DecidableEq α] : DecidableEq (Except ε α) :=
  fun a b =>
    match a, b with
    | .error e, .error f =>
      if h : e = f then isTrue (by rw [h]) else isFalse (fun hc => h (by cases hc; rfl))
    | .ok x, .ok y =>
      if h : x = y then isTrue (by rw [h]) else isFalse (fun hc => h (by cases hc; rfl))
    | .error _, .ok _ => isFalse (fun hc => Except.noConfusion hc)
    | .ok _, .error _ => isFalse (fun hc => Except.noConfusion hc)

/-- Does `hay` start with `needle`? -/
def strStarts : List Char → List Char → Bool
  | [], _ => true
  | _ :: _, [] => false
  | n :: ns, h :: hs => n = h && strStarts ns hs

/-- Substring containment, as Python's `in` on strings. -/
def strInfixChars (needle : List Char) : List Char → Bool
  | [] => needle.isEmpty
  | h :: hs => strStarts needle (h :: hs) || strInfixChars needle hs

/-- Python's `needle in container`: key membership for dicts, element
membership for lists, substring test for strings, `TypeError` for
non-iterable values (`int`, `float`, `bool`, `None`). -/
def pyContains (needle container : JVal) : Except PyErr Bool :=
  match container with
  | jobj fields => .ok (fields.any (fun kv => jvalBeq (jstr kv.1) needle))
  | jarr xs => .ok (xs.any (fun x => jvalBeq x needle))
  | jstr s =>
    match needle with
    | jstr n => .ok (strInfixChars n.data s.data)
    | _ => .error (.typeError "in <string> requires string as left operand")
  | jnull => .error (.typeError "argument of type \x27NoneType\x27 is not iterable")
  | jbool _ => .error (.typeError "argument of type \x27bool\x27 is not iterable")
  | jint _ => .error (.typeError "argument of type \x27int\x27 is not iterable")
  | jfloat _ => .error (.typeError "argument of type \x27float\x27 is not iterable")

/-! `llm_json` (agent_fun.py)

The two `_llm_raw` calls are external: `txt` is the stripped raw completion
and `repairTxt` the stripped output of the one repair round.  `"action" not
in result` is the Python membership test, which raises `TypeError` when
`_extract_json` produced a non-container scalar. -/

def llm_json (txt repairTxt : String) : Except PyErr JVal :=
  match pyContains (jstr "action") (extract_json txt) with
  | .error e => .error e
  | .ok true => .ok (extract_json txt)
  | .ok false =>
    match pyContains (jstr "action") (extract_json repairTxt) with
    | .error e => .error e
    | .ok true => .ok (extract_json repairTxt)
    | .ok false => .ok (jobj [("action", jstr "final"), ("answer", jstr txt)])

/-! Console sentinel check (agent_fun.py, main)

`user = input("You: ").strip()` followed by
`if not user or user.lower() in {"exit", "quit", "bye"}: break`. -/

def sentinels : List String := ["exit", "quit", "bye"]

/-- Does one line of console input end the session?  `not user` is the
emptiness test on the stripped input. -/
def sessionEnds (raw : String) : Bool :=
  let user := pyStrip raw
  user == "" || sentinels.contains (pyLower user)

/-! `_get_with_retry` (server_fun.py)

The network is an oracle from the attempt number to what `requests.get`
plus `raise_for_status` produce: a response with a status code, or a
`RequestException`.  `time.sleep(2 ** attempt)` is recorded in a list. -/

/-- What one `requests.get` attempt yields. -/
inductive AttemptResult where
  | resp (status : Nat) (body : String)
  | exc (msg : String)
  deriving DecidableEq

inductive RetryErr where
  | httpError (status : Nat)
  | netError (msg : String)
  | runtimeError (msg : String)
  deriving DecidableEq

/-- Result of the wrapper: the returned response (attempt index, status,
body) or the raised error, together with the sleeps performed. -/
structure RetryOut where
  result : Except RetryErr (Nat × Nat × String)
  sleeps : List Nat
  deriving DecidableEq

/-- The `for attempt in range(max_retries)` loop.  `raise_for_status`
raises `HTTPError` exactly for status codes in [400, 600); a 429 before the
last attempt sleeps `2 ** attempt` and retries, as does any
`RequestException`; anything else propagates at once. -/
def retryLoop (net : Nat → AttemptResult) (maxRetries : Nat) :
    List Nat → RetryErr → List Nat → RetryOut
  | [], lastError, sleeps => ⟨.error lastError, sleeps⟩
  | a :: rest, _lastError, sleeps =>
    match net a with
    | .resp status body =>
      if 400 ≤ status ∧ status < 600 then
        if status = 429 ∧ a < maxRetries - 1 then
          retryLoop net maxRetries rest (.httpError status) (sleeps ++ [2 ^ a])
        else ⟨.error (.httpError status), sleeps⟩
      else ⟨.ok (a, status, body), sleeps⟩
    | .exc msg =>
      if a < maxRetries - 1 then
        retryLoop net maxRetries rest (.netError msg) (sleeps ++ [2 ^ a])
      else ⟨.error (.netError msg), sleeps⟩

/-- Model of `_get_with_retry` with its `last_error` initialised to
`RuntimeError("Max retries exceeded")`. -/
def get_with_retry (net : Nat → AttemptResult) (maxRetries : Nat) : RetryOut :=
  retryLoop net maxRetries (List.range maxRetries)
    (.runtimeError "Max retries exceeded") []

/-! `json.dumps` and `str`/`repr` (defaults, ASCII escaping) -/

def hexDigit (n : Nat) : Char :=
  "0123456789abcdef".data.getD (n % 16) '0'

def escU16 (n : Nat) : List Char :=
  '\\' :: 'u' :: ([n / 4096, n / 256, n / 16, n].map hexDigit)

/-- One character of a dumped JSON string under `ensure_ascii=True`:
the two-character escapes, `\uXXXX` for other control or non-ASCII
characters (astral code points become a surrogate pair of escapes). -/
def dumpsEscChar (c : Char) : List Char :=
  if c = '"' then ['\\', '"']
  else if c = '\\' then ['\\', '\\']
  else if c = '\n' then ['\\', 'n']
  else if c = '\r' then ['\\', 'r']
  else if c = '\t' then ['\\', 't']
  else if c = '\x08' then ['\\', 'b']
  else if c = '\x0c' then ['\\', 'f']
  else if c.toNat < 0x20 || 0x7f ≤ c.toNat then
    if c.toNat < 0x10000 then escU16 c.toNat
    else
      escU16 (0xd800 + (c.toNat - 0x10000) / 0x400) ++
        escU16 (0xdc00 + (c.toNat - 0x10000) % 0x400)
  else [c]

def dumpsStr (s : String) : String :=
  ⟨'"' :: s.data.foldr (fun c acc => dumpsEscChar c ++ acc) ['"']⟩

mutual

/-- Model of json.dumps with default arguments: separators `", "` and `": "`,
no sorting, ASCII escaping.  A float dumps as its carried literal (the
round-trip through the machine float is not modelled; no verified property
dumps a float). -/
def dumps : JVal → String
  | jnull => "null"
  | jbool true => "true"
  | jbool false => "false"
  | jint n => toString n
  | jfloat lit => lit
  | jstr s => dumpsStr s
  | jarr xs => "[" ++ dumpsElems xs ++ "]"
  | jobj fs => "\x7b" ++ dumpsFields fs ++ "\x7d"

def dumpsElems : List JVal → String
  | [] => ""
  | [x] => dumps x
  | x :: y :: rest => dumps x ++ ", " ++ dumpsElems (y :: rest)

def dumpsFields : List (String × JVal) → String
  | [] => ""
  | [(k, v)] => dumpsStr k ++ ": " ++ dumps v
  | (k, v) :: g :: rest => dumpsStr k ++ ": " ++ dumps v ++ ", " ++ dumpsFields (g :: rest)

end

/-- The apostrophe character. -/
def squote : Char := Char.ofNat 39

/-- Python repr of a string: single-quoted with backslash escapes (the
common case; the double-quote fallback for strings containing an apostrophe
and exotic escapes are not modelled — no verified property reprs such a
string). -/
def reprEscChar (c : Char) : List Char :=
  if c = '\\' then ['\\', '\\']
  else if c = squote then ['\\', squote]
  else if c = '\n' then ['\\', 'n']
  else if c = '\r' then ['\\', 'r']
  else if c = '\t' then ['\\', 't']
  else [c]

def reprStr (s : String) : String :=
  ⟨squote :: s.data.foldr (fun c acc => reprEscChar c ++ acc) [squote]⟩

mutual

/-- Python `repr` on JSON-shaped values. -/
def pyRepr : JVal → String
  | jnull => "None"
  | jbool true => "True"
  | jbool false => "False"
  | jint n => toString n
  | jfloat lit => lit
  | jstr s => reprStr s
  | jarr xs => "[" ++ pyReprElems xs ++ "]"
  | jobj fs => "\x7b" ++ pyReprFields fs ++ "\x7d"

def pyReprElems : List JVal → String
  | [] => ""
  | [x] => pyRepr x
  | x :: y :: rest => pyRepr x ++ ", " ++ pyReprElems (y :: rest)

def pyReprFields : List (String × JVal) → String
  | [] => ""
  | [(k, v)] => reprStr k ++ ": " ++ pyRepr v
  | (k, v) :: g :: rest => reprStr k ++ ": " ++ pyRepr v ++ ", " ++ pyReprFields (g :: rest)

end

/-- Python `str` (as used by an f-string): a string formats as itself,
anything else as its repr. -/
def pyStr : JVal → String
  | jstr s => s
  | v => pyRepr v

/-! The agent loop (agent_fun.py, main)

One user query: history is seeded with the system prompt and the query;
each step asks the model and decodes the text with `llm_json` — modelled
together as an oracle returning what `llm_json` returns: a value (not
necessarily a dict, see C1) or a raised exception.  The step then either
stops on `action == "final"`, calls a registered tool (the MCP transport
is an oracle giving the payload string or the raised exception), or
appends the corrective message for an unknown tool.  A non-dict decision
raises AttributeError at `decision.get`; an unhashable action value (a
list or a dict) raises TypeError at `tname not in tool_index`; either
exception propagates out of the loop and the query produces no answer.
`MAX_STEPS` bounds the number of model-decision cycles. -/

structure Msg where
  role : String
  content : String
  deriving DecidableEq

/-- The decision dictionary handed back by `llm_json`. -/
abbrev PyDict := List (String × JVal)

/-- What `await session.call_tool(...)` plus payload extraction yields:
the payload string, or the message of a raised exception. -/
inductive ToolOutcome where
  | payload (text : String)
  | raises (msg : String)
  deriving DecidableEq

/-- Outcome of one loop iteration: break with a final answer, or continue
with the new history. -/
inductive StepOut where
  | finalAns (hist : List Msg) (answer : JVal)
  | next (hist : List Msg)
  deriving DecidableEq

def MAX_STEPS : Nat := 8

def stepLimitMsg : String :=
  "I reached the step limit. Please try a simpler or more specific prompt."

/-- The check `tname not in tool_index` on a hashable candidate: only a
string naming a known tool passes; any other hashable value (`None`, a
bool, a number, or an unknown string) is simply not a key and takes the
corrective branch.  Unhashable candidates (lists, dicts) never reach this
check — `loopStep` raises `TypeError` for them first, as Python does. -/
def registeredName (tools : List String) : JVal → Option String
  | jstr s => if tools.contains s then some s else none
  | _ => none

/-- Is a value hashable in Python?  Exactly the non-container JSON values
and strings are; a list or dict raises `TypeError: unhashable type` when
used in a dict membership test. -/
def hashableJVal : JVal → Bool
  | jarr _ => false
  | jobj _ => false
  | _ => true

/-- The message `f"Tool '{tname}' does not exist. Available tools:
{list(tool_index.keys())}. Please use a valid tool or produce a final
answer."` -/
def correctiveMsg (tname : JVal) (tools : List String) : String :=
  "Tool \x27" ++ pyStr tname ++ "\x27 does not exist. Available tools: " ++
    pyRepr (jarr (tools.map jstr)) ++
    ". Please use a valid tool or produce a final answer."

/-- The test `decision.get("action") == "final"` (Python equality against a
string). -/
def isFinalDecision (decision : PyDict) : Bool :=
  match dictLookup decision "action" with
  | some v => jvalBeq v (jstr "final")
  | none => false

/-- The value `tname = decision.get("action", "")`. -/
def decisionTName (decision : PyDict) : JVal :=
  (dictLookup decision "action").getD (jstr "")

/-- The value `args = decision.get("args", {})`. -/
def decisionArgs (decision : PyDict) : JVal :=
  (dictLookup decision "args").getD (jobj [])

/-- The history entry `{"role": "assistant", "content": json.dumps(decision)}`. -/
def mkAssistantMsg (decision : PyDict) : Msg :=
  ⟨"assistant", dumps (jobj decision)⟩

/-- The payload string: the tool result on success, or
`json.dumps({"error": str(exc)})` when the invocation raised. -/
def toolPayload (toolO : String → JVal → ToolOutcome) (s : String)
    (decision : PyDict) : String :=
  match toolO s (decisionArgs decision) with
  | .payload p => p
  | .raises m => dumps (jobj [("error", jstr m)])

/-- The observation entry `{"role": "user", "content": f"Result of {tname}:
{payload}"}`. -/
def mkToolResultMsg (s payload : String) : Msg :=
  ⟨"user", "Result of " ++ s ++ ": " ++ payload⟩

/-- One iteration of the ReAct loop body.  A non-dict decision raises
`AttributeError` at `decision.get("action")`; a dict whose action value is
a list or a dict raises `TypeError: unhashable type` at the membership
test `tname not in tool_index`; both are reachable outputs of `llm_json`
(raw texts `"action items"` in quotes and `{"action": []}` respectively). -/
def loopStep (tools : List String) (toolO : String → JVal → ToolOutcome)
    (hist : List Msg) (decision : JVal) : Except PyErr StepOut :=
  match decision with
  | jobj d =>
    if isFinalDecision d then
      .ok (.finalAns hist ((dictLookup d "answer").getD (jstr "")))
    else
      match decisionTName d with
      | jarr _ => .error (.typeError "unhashable type: \x27list\x27")
      | jobj _ => .error (.typeError "unhashable type: \x27dict\x27")
      | tname =>
        match registeredName tools tname with
        | some s =>
          .ok (.next (hist ++ [mkAssistantMsg d,
            mkToolResultMsg s (toolPayload toolO s d)]))
        | none =>
          .ok (.next (hist ++ [mkAssistantMsg d,
            ⟨"user", correctiveMsg tname tools⟩]))
  | _ => .error (.attrError "object has no attribute \x27get\x27")

/-- Outcome of a whole query's loop: the completed run (final history and
captured answer, if any) or the exception that escaped, together with the
number of model-decision cycles performed (an iteration that raises still
invoked the model once). -/
structure LoopOut where
  result : Except PyErr (List Msg × Option JVal)
  steps : Nat
  deriving DecidableEq

/-- The loop `for _step in range(MAX_STEPS)` over the loop body; the
model-plus-decoder oracle has the profile of `llm_json` and may raise. -/
def runLoop (llm : List Msg → Except PyErr JVal) (tools : List String)
    (toolO : String → JVal → ToolOutcome) : Nat → List Msg → Nat → LoopOut
  | 0, hist, steps => ⟨.ok (hist, none), steps⟩
  | fuel + 1, hist, steps =>
    match llm hist with
    | .error e => ⟨.error e, steps + 1⟩
    | .ok decision =>
      match loopStep tools toolO hist decision with
      | .error e => ⟨.error e, steps + 1⟩
      | .ok (.finalAns h a) => ⟨.ok (h, some a), steps + 1⟩
      | .ok (.next h) => runLoop llm tools toolO fuel h (steps + 1)

def initHist (sysPrompt user : String) : List Msg :=
  [⟨"system", sysPrompt⟩, ⟨"user", user⟩]

/-- The loop's final answer for one query, before the reflection pass: the
captured answer; the step-limit fallback when the loop exhausted
`MAX_STEPS` without a final decision; or the escaped exception, in which
case the query produces no answer at all. -/
def loopAnswer (llm : List Msg → Except PyErr JVal) (tools : List String)
    (toolO : String → JVal → ToolOutcome) (sysPrompt user : String) :
    Except PyErr JVal :=
  match (runLoop llm tools toolO MAX_STEPS (initHist sysPrompt user) 0).result with
  | .error e => .error e
  | .ok (_, some a) => .ok a
  | .ok (_, none) => .ok (jstr stepLimitMsg)

/-! Python value helpers for the tools -/

/-- Python bool of a float literal: zero mantissa and no `nan`/`inf` letters
is falsy. -/
def floatLitTruthy (lit : String) : Bool :=
  lit.data.any (fun c => (isDigit c && c ≠ '0') || c = 'n' || c = 'N' || c = 'I')

/-- Python truthiness. -/
def pyTruthy : JVal → Bool
  | jnull => false
  | jbool b => b
  | jint n => n != 0
  | jfloat lit => floatLitTruthy lit
  | jstr s => s != ""
  | jarr xs => !xs.isEmpty
  | jobj fs => !fs.isEmpty

/-- Python `v.get(k, default)`: only dicts have `.get`. -/
def pyGetAttr (v : JVal) (k : String) (default : JVal) : Except PyErr JVal :=
  match v with
  | jobj f => .ok ((dictLookup f k).getD default)
  | _ => .error (.attrError "object has no attribute \x27get\x27")

/-- Python `x[0]`. -/
def pySubZero : JVal → Except PyErr JVal
  | jarr [] => .error (.indexError "list index out of range")
  | jarr (x :: _) => .ok x
  | jstr s =>
    match s.data with
    | [] => .error (.indexError "string index out of range")
    | c :: _ => .ok (jstr ⟨[c]⟩)
  | jobj _ => .error (.keyError "0")
  | _ => .error (.typeError "object is not subscriptable")

/-- Python `q[k]` for a string key. -/
def pyGetItem (q : JVal) (k : String) : Except PyErr JVal :=
  match q with
  | jobj f =>
    match dictLookup f k with
    | some v => .ok v
    | none => .error (.keyError k)
  | jarr _ => .error (.typeError "list indices must be integers or slices, not str")
  | jstr _ => .error (.typeError "string indices must be integers")
  | _ => .error (.typeError "object is not subscriptable")

/-- Python `q[k] = v` for a string key. -/
def pySetItem (q : JVal) (k : String) (v : JVal) : Except PyErr JVal :=
  match q with
  | jobj f => .ok (jobj (insertOrReplace f k v))
  | _ => .error (.typeError "object does not support item assignment")

/-- Model of `html.unescape(x)`, whose stdlib source is
`if '&' not in x: return x` then a regex substitution: the membership test
follows Python `in` (so it raises on non-iterables), a value without an
ampersand is returned unchanged, and the substitution demands a string.
The replacement table itself is the external oracle `unescape`. -/
def pyUnescape (unescape : String → String) (x : JVal) : Except PyErr JVal :=
  match pyContains (jstr "&") x with
  | .error e => .error e
  | .ok false => .ok x
  | .ok true =>
    match x with
    | jstr s => .ok (jstr (unescape s))
    | _ => .error (.typeError "expected string or bytes-like object")

/-! `book_recs` (server_fun.py)

The Open Library response body (`r.json()`) is the oracle argument; the
`limit` is forwarded to the upstream request and never enforced locally. -/

def openLibraryBase : String := "https://openlibrary.org"

/-- One element of `picks` built from a doc `d`:
`{"title": d.get("title"),
  "author": (d.get("author_name") or ["Unknown"])[0],
  "year": d.get("first_publish_year"),
  "link": "https://openlibrary.org" + d.get("key", "")}`. -/
def mkPick (d : JVal) : Except PyErr JVal :=
  match d with
  | jobj f =>
    let title := (dictLookup f "title").getD jnull
    let an := (dictLookup f "author_name").getD jnull
    let authorBase := if pyTruthy an then an else jarr [jstr "Unknown"]
    match pySubZero authorBase with
    | .error e => .error e
    | .ok author =>
      let year := (dictLookup f "first_publish_year").getD jnull
      match (dictLookup f "key").getD (jstr "") with
      | jstr k =>
        .ok (jobj [("title", title), ("author", author), ("year", year),
                   ("link", jstr (openLibraryBase ++ k))])
      | _ => .error (.typeError "can only concatenate str to str")
  | _ => .error (.attrError "object has no attribute \x27get\x27")

def buildPicks : List JVal → Except PyErr (List JVal)
  | [] => .ok []
  | d :: rest =>
    match mkPick d with
    | .error e => .error e
    | .ok p =>
      match buildPicks rest with
      | .error e => .error e
      | .ok ps => .ok (p :: ps)

/-- Model of `book_recs(topic, limit)` applied to the upstream response value.
The iteration over `docs` appends one pick per doc; no truncation to
`limit` happens here.  A `docs` value that is not a list of dicts raises
as the Python `for`/`.get` would (the zero-iteration cases of an empty
string or dict succeed with no picks). -/
def book_recs (topic : String) (resp : JVal) : Except PyErr JVal :=
  match pyGetAttr resp "docs" (jarr []) with
  | .error e => .error e
  | .ok docs =>
    match docs with
    | jarr ds =>
      match buildPicks ds with
      | .error e => .error e
      | .ok picks => .ok (jobj [("topic", jstr topic), ("results", jarr picks)])
    | jstr s =>
      if s = "" then .ok (jobj [("topic", jstr topic), ("results", jarr [])])
      else .error (.attrError "\x27str\x27 object has no attribute \x27get\x27")
    | jobj [] => .ok (jobj [("topic", jstr topic), ("results", jarr [])])
    | jobj (_ :: _) => .error (.attrError "\x27str\x27 object has no attribute \x27get\x27")
    | _ => .error (.typeError "object is not iterable")

/-! `trivia` (server_fun.py) -/

def triviaErrPayload : JVal :=
  jobj [("error", jstr "No trivia available right now, try again later.")]

def unescapeEach (unescape : String → String) : List JVal → Except PyErr (List JVal)
  | [] => .ok []
  | x :: rest =>
    match pyUnescape unescape x with
    | .error e => .error e
    | .ok y =>
      match unescapeEach unescape rest with
      | .error e => .error e
      | .ok ys => .ok (y :: ys)

/-- The comprehension `[html.unescape(x) for x in v]`: lists iterate elements, strings
iterate their one-character strings, dicts iterate keys; other values are
not iterable. -/
def unescapeComp (unescape : String → String) (v : JVal) : Except PyErr JVal :=
  match v with
  | jarr xs =>
    match unescapeEach unescape xs with
    | .error e => .error e
    | .ok ys => .ok (jarr ys)
  | jstr s =>
    match unescapeEach unescape (s.data.map (fun c => jstr ⟨[c]⟩)) with
    | .error e => .error e
    | .ok ys => .ok (jarr ys)
  | jobj fs =>
    match unescapeEach unescape (fs.map (fun kv => jstr kv.1)) with
    | .error e => .error e
    | .ok ys => .ok (jarr ys)
  | _ => .error (.typeError "object is not iterable")

/-- The three in-place updates of `q = data[0]`:
`q["question"] = html.unescape(q["question"])`, then the same for
`correct_answer`, then the list comprehension for `incorrect_answers`,
returning the mutated `q`. -/
def triviaFirst (unescape : String → String) (q : JVal) : Except PyErr JVal :=
  match pyGetItem q "question" with
  | .error e => .error e
  | .ok qv =>
    match pyUnescape unescape qv with
    | .error e => .error e
    | .ok qv' =>
      match pySetItem q "question" qv' with
      | .error e => .error e
      | .ok q₁ =>
        match pyGetItem q₁ "correct_answer" with
        | .error e => .error e
        | .ok cv =>
          match pyUnescape unescape cv with
          | .error e => .error e
          | .ok cv' =>
            match pySetItem q₁ "correct_answer" cv' with
            | .error e => .error e
            | .ok q₂ =>
              match pyGetItem q₂ "incorrect_answers" with
              | .error e => .error e
              | .ok iv =>
                match unescapeComp unescape iv with
                | .error e => .error e
                | .ok iv' => pySetItem q₂ "incorrect_answers" iv'

/-- Model of `trivia()` applied to the upstream response value: the empty (falsy)
results list yields the domain error payload; otherwise the first entry is
mutated in place, raising `KeyError` for any missing key. -/
def trivia (unescape : String → String) (resp : JVal) : Except PyErr JVal :=
  match pyGetAttr resp "results" (jarr []) with
  | .error e => .error e
  | .ok data =>
    if pyTruthy data = false then .ok triviaErrPayload
    else
      match pySubZero data with
      | .error e => .error e
      | .ok q => triviaFirst unescape q

/-! Specification-side definitions used in refinement statements -/

/-- Modelled from the spec: one returned book entry — title, "first author
of the upstream record or the string Unknown when no author is listed",
publish year, link — as a function of the upstream doc. -/
def specBookEntry : JVal → JVal
  | jobj f =>
    jobj [("title", (dictLookup f "title").getD jnull),
          ("author",
            match dictLookup f "author_name" with
            | some (jarr (a :: _)) => a
            | _ => jstr "Unknown"),
          ("year", (dictLookup f "first_publish_year").getD jnull),
          ("link", jstr (openLibraryBase ++
            match dictLookup f "key" with
            | some (jstr k) => k
            | _ => ""))]
  | _ => jnull

/-- An upstream Open Library doc of the shape the search API delivers: a
JSON object whose author_name, when present, is null or a list, and whose
key, when present, is a string. -/
def DocOK (d : JVal) : Prop :=
  ∃ f, d = jobj f ∧
    (dictLookup f "author_name" = none ∨ dictLookup f "author_name" = some jnull ∨
      ∃ l, dictLookup f "author_name" = some (jarr l)) ∧
    (dictLookup f "key" = none ∨ ∃ k, dictLookup f "key" = some (jstr k))

/-- A retryable attempt outcome: an HTTP 429 response or a network
exception. -/
def Retryable (r : AttemptResult) : Prop :=
  (∃ body, r = .resp 429 body) ∨ (∃ msg, r = .exc msg)

end WeekendWizard

namespace WeekendWizard

open JVal

/-! Helper lemmas -/

theorem dictLookup_insertOrReplace (f : List (String × JVal)) (k k' : String)
    (v : JVal) :
    dictLookup (insertOrReplace f k v) k' =
      if k = k' then some v else dictLookup f k' := by
  induction f with
  | nil => simp [insertOrReplace, dictLookup]
  | cons a rest ih =>
    obtain ⟨k₀, v₀⟩ := a
    by_cases h0 : k₀ = k
    · subst h0
      by_cases h1 : k₀ = k'
      · subst h1
        simp [insertOrReplace, dictLookup]
      · simp [insertOrReplace, dictLookup, h1]
    · by_cases h1 : k₀ = k'
      · subst h1
        have hne : k ≠ k₀ := fun h => h0 h.symm
        simp [insertOrReplace, dictLookup, h0, hne]
      · simp [insertOrReplace, dictLookup, h0, h1, ih]

theorem retryLoop_skips_retryable (net : Nat → AttemptResult)
    (maxRetries status : Nat) (body : String)
    (h400 : 400 ≤ status) (h600 : status < 600) (h429 : status ≠ 429) :
    ∀ (k a : Nat) (le : RetryErr) (sl : List Nat),
      a + k < maxRetries →
      (∀ i, i < k → Retryable (net (a + i))) →
      net (a + k) = .resp status body →
      retryLoop net maxRetries (List.range' a (maxRetries - a)) le sl =
        ⟨.error (.httpError status), sl ++ (List.range' a k).map (2 ^ ·)⟩
  | 0, a, le, sl, hlt, _hpre, hat => by
    simp only [Nat.add_zero] at hat
    have hsub : maxRetries - a = (maxRetries - a - 1) + 1 := by omega
    rw [hsub, List.range'_succ]
    simp only [retryLoop]
    rw [hat]
    simp only []
    rw [if_pos ⟨h400, h600⟩, if_neg (fun hc => h429 hc.1)]
    simp
  | k + 1, a, le, sl, hlt, hpre, hat => by
    have hsub : maxRetries - a = (maxRetries - a - 1) + 1 := by omega
    rw [hsub, List.range'_succ]
    simp only [retryLoop]
    have halt : a < maxRetries - 1 := by omega
    have hrec := retryLoop_skips_retryable net maxRetries status body h400 h600 h429
      k (a + 1)
    rw [show maxRetries - (a + 1) = maxRetries - a - 1 from by omega] at hrec
    have hpre' : ∀ i, i < k → Retryable (net (a + 1 + i)) := by
      intro i hi
      have := hpre (i + 1) (by omega)
      rwa [show a + (i + 1) = a + 1 + i from by omega] at this
    have hat' : net (a + 1 + k) = .resp status body := by
      rwa [show a + 1 + k = a + (k + 1) from by omega]
    rcases hpre 0 (Nat.succ_pos k) with ⟨b, hb⟩ | ⟨m, hm⟩
    · simp only [Nat.add_zero] at hb
      rw [hb]
      simp only []
      have hc1 : (400 : Nat) ≤ 429 ∧ (429 : Nat) < 600 := by omega
      rw [if_pos hc1]
      split
      case isTrue =>
        rw [hrec (.httpError 429) (sl ++ [2 ^ a]) (by omega) hpre' hat',
          List.range'_succ]
        simp
      case isFalse h =>
        exact absurd ⟨by trivial, halt⟩ h
    · simp only [Nat.add_zero] at hm
      rw [hm]
      simp only []
      rw [if_pos halt]
      rw [hrec (.netError m) (sl ++ [2 ^ a]) (by omega) hpre' hat']
      rw [List.range'_succ]
      simp

/-! Claim C1 -/

/-- C1: the claim says `llm_json` never raises and always returns a decision
with an action key.  The code contradicts its own `Dict[str, Any]`
annotations: on raw model text `"42"`, `_extract_json` direct-parses the
Python int `42`, and the membership test `"action" not in result` raises
`TypeError` before the repair round can run, for any repair output. -/
theorem C1_llm_json_raises_on_scalar :
    llm_json "42" "anything" =
      .error (.typeError "argument of type \x27int\x27 is not iterable") ∧
    extract_json "42" = jint 42 := by
  constructor
  · rfl
  · rfl

/-! Claim C2 -/

/-- C2 counterexample: the empty console input terminates the session
(`not user` short-circuits the sentinel test), although it is not one of
the sentinels — the claim says it is ignored and re-prompted. -/
theorem C2_counterexample_empty_input_ends_session :
    sessionEnds "" = true ∧
    sentinels.contains (pyLower (pyStrip "")) = false := by
  constructor
  · rfl
  · rfl

/-- C2 amended: a console input terminates the session exactly when its
stripped form is empty or lowercases to one of the sentinels
exit/quit/bye. -/
theorem C2_session_ends_iff_sentinel_or_empty (raw : String) :
    sessionEnds raw = true ↔
      (pyStrip raw = "" ∨ sentinels.contains (pyLower (pyStrip raw)) = true) := by
  simp [sessionEnds, Bool.or_eq_true, beq_iff_eq]

/-! Claim C3 -/

/-- C3: on a response sequence 429, 429, 200 with the fixed retry count 3,
the wrapper returns the success on the third attempt (index 2) after
sleeping exactly 1 then 2 time units before attempts 2 and 3. -/
theorem C3_retry_twice_429_then_success :
    get_with_retry (fun a => if a < 2 then .resp 429 "" else .resp 200 "ok") 3 =
      ⟨.ok (2, 200, "ok"), [1, 2]⟩ := by
  rfl

/-! Claim C4 -/

/-- C4: any HTTP error status that is a 4xx other than 429 or a 5xx is
raised on the attempt where it occurs, after any earlier retryable attempts
(429s or network exceptions), with no further retry and no backoff sleep
for that attempt: the sleeps are exactly those of the earlier retries. -/
theorem C4_nonretryable_raises_immediately (net : Nat → AttemptResult)
    (maxRetries k status : Nat) (body : String)
    (hk : k < maxRetries)
    (hpre : ∀ i, i < k → Retryable (net i))
    (hat : net k = .resp status body)
    (h400 : 400 ≤ status) (h600 : status < 600) (h429 : status ≠ 429) :
    get_with_retry net maxRetries =
      ⟨.error (.httpError status), (List.range k).map (2 ^ ·)⟩ := by
  unfold get_with_retry
  have := retryLoop_skips_retryable net maxRetries status body h400 h600 h429
    k 0 (.runtimeError "Max retries exceeded") [] (by omega)
    (fun i hi => by simpa using hpre i hi) (by simpa using hat)
  rw [List.range_eq_range']
  simpa [List.range_eq_range'] using this

/-- C4 witness: a 429 then a 404 with retry count 3 — the 404 raises at
attempt index 1 with only the single backoff sleep from the 429. -/
theorem C4_witness :
    get_with_retry (fun a => if a = 0 then .resp 429 "" else .resp 404 "nf") 3 =
      ⟨.error (.httpError 404), [1]⟩ := by
  have h := C4_nonretryable_raises_immediately
    (fun a => if a = 0 then .resp 429 "" else .resp 404 "nf") 3 1 404 "nf"
    (by omega)
    (fun i hi => by
      have : i = 0 := by omega
      subst this
      exact Or.inl ⟨"", rfl⟩)
    rfl (by omega) (by omega) (by omega)
  rw [h]
  rfl

/-! Claim C5 -/

theorem runLoop_steps_le (llm : List Msg → Except PyErr JVal) (tools : List String)
    (toolO : String → JVal → ToolOutcome) :
    ∀ (fuel : Nat) (hist : List Msg) (s : Nat),
      (runLoop llm tools toolO fuel hist s).steps ≤ s + fuel
  | 0, hist, s => by simp [runLoop]
  | fuel + 1, hist, s => by
    simp only [runLoop]
    cases llm hist with
    | error e =>
      show s + 1 ≤ s + (fuel + 1)
      omega
    | ok decision =>
      simp only []
      cases loopStep tools toolO hist decision with
      | error e =>
        show s + 1 ≤ s + (fuel + 1)
        omega
      | ok so =>
        cases so with
        | finalAns h a =>
          show s + 1 ≤ s + (fuel + 1)
          omega
        | next h =>
          exact le_trans (runLoop_steps_le llm tools toolO fuel h (s + 1)) (by omega)

/-- C5 counterexample: the claim promises the verbatim fallback answer
whenever no final decision occurs within the 8 cycles, but a decision
`{"action": []}` — a genuine `llm_json` output, since the dict carries an
action key — raises `TypeError: unhashable type` at the membership test on
the first cycle: the loop dies with no answer at all, and the fallback is
never produced. -/
theorem C5_counterexample_unhashable_action_crashes :
    runLoop (fun _ => .ok (jobj [("action", jarr [])])) []
        (fun _ _ => .payload "x") MAX_STEPS (initHist "S" "U") 0 =
      ⟨.error (.typeError "unhashable type: \x27list\x27"), 1⟩ ∧
    loopAnswer (fun _ => .ok (jobj [("action", jarr [])])) []
        (fun _ _ => .payload "x") "S" "U" =
      .error (.typeError "unhashable type: \x27list\x27") ∧
    (.error (.typeError "unhashable type: \x27list\x27") : Except PyErr JVal) ≠
      .ok (jstr stepLimitMsg) := by
  refine ⟨by decide, by decide, by decide⟩

/-- C5 amended: the loop performs at most MAX_STEPS = 8 model-decision
cycles for any oracles (cycles whose decode or step raises included); and
when the loop completes without an exception and no final decision
occurred, the loop answer is the fixed fallback string verbatim.  A cycle
may instead raise (non-dict decision, unhashable action value, or
`llm_json` itself raising as in C1), and then the query has no answer. -/
theorem C5_step_cap_and_fallback (llm : List Msg → Except PyErr JVal)
    (tools : List String) (toolO : String → JVal → ToolOutcome)
    (sysPrompt user : String) :
    (runLoop llm tools toolO MAX_STEPS (initHist sysPrompt user) 0).steps ≤ MAX_STEPS ∧
    (∀ hist,
      (runLoop llm tools toolO MAX_STEPS (initHist sysPrompt user) 0).result =
        .ok (hist, none) →
      loopAnswer llm tools toolO sysPrompt user = .ok (jstr stepLimitMsg)) := by
  constructor
  · simpa using runLoop_steps_le llm tools toolO MAX_STEPS (initHist sysPrompt user) 0
  · intro hist hres
    unfold loopAnswer
    rw [hres]

/-- C5 witness: a model that always requests a nonexistent tool (by a
string name) exhausts all 8 steps without raising, and the loop answers
with the fallback string. -/
theorem C5_witness :
    loopAnswer (fun _ => .ok (jobj [("action", jstr "nope")])) []
      (fun _ _ => .payload "x") "S" "U" = .ok (jstr stepLimitMsg) :=
  (C5_step_cap_and_fallback (fun _ => .ok (jobj [("action", jstr "nope")])) []
    (fun _ _ => .payload "x") "S" "U").2
    (initHist "S" "U" ++
      (List.replicate 8
        [(⟨"assistant", "\x7b\"action\": \"nope\"\x7d"⟩ : Msg),
         ⟨"user", "Tool \x27nope\x27 does not exist. Available tools: []. Please use a valid tool or produce a final answer."⟩]).flatten)
    (by decide)

/-! Claim C6 -/

theorem loopStep_jobj_nonfinal_hashable (tools : List String)
    (toolO : String → JVal → ToolOutcome) (hist : List Msg)
    (d : List (String × JVal))
    (hf : isFinalDecision d = false)
    (hname : hashableJVal (decisionTName d) = true) :
    loopStep tools toolO hist (jobj d) =
      .ok (.next (hist ++ [mkAssistantMsg d,
        match registeredName tools (decisionTName d) with
        | some s => mkToolResultMsg s (toolPayload toolO s d)
        | none => ⟨"user", correctiveMsg (decisionTName d) tools⟩])) := by
  cases htn : decisionTName d with
  | jarr l => simp [hashableJVal, htn] at hname
  | jobj f => simp [hashableJVal, htn] at hname
  | jstr s =>
    cases hreg : registeredName tools (jstr s) with
    | some s' => simp [loopStep, hf, htn, hreg]
    | none => simp [loopStep, hf, htn, hreg]
  | jnull => simp [loopStep, hf, htn, registeredName]
  | jbool b => simp [loopStep, hf, htn, registeredName]
  | jint n => simp [loopStep, hf, htn, registeredName]
  | jfloat l => simp [loopStep, hf, htn, registeredName]

/-- C6 counterexample: the claim asserts two-message growth for every
non-final iteration, but a decision `{"action": []}` (an `llm_json`
output) raises `TypeError: unhashable type` at the membership test, and
the non-dict decision produced from the raw text `"action items"` (a JSON
string containing the substring action) raises `AttributeError` at
`decision.get` — both iterations append nothing. -/
theorem C6_counterexample_crashing_iteration_appends_nothing :
    loopStep [] (fun _ _ => .payload "") [] (jobj [("action", jarr [])]) =
      .error (.typeError "unhashable type: \x27list\x27") ∧
    loopStep [] (fun _ _ => .payload "") [] (jstr "action items") =
      .error (.attrError "object has no attribute \x27get\x27") := by
  refine ⟨by decide, by decide⟩

/-- C6 amended: every loop iteration whose decision is a dict with a
hashable action value (present or defaulted — in particular every decision
that names a tool, registered with success or exception, or unregistered)
never raises and either terminates with a final answer leaving the history
untouched, or grows the history by exactly two messages: one
assistant-role decision and one user-role observation or corrective
message.  An iteration whose decision is not a dict, or whose action value
is a list or dict, raises instead and appends nothing. -/
theorem C6_history_grows_by_two (tools : List String)
    (toolO : String → JVal → ToolOutcome) (hist : List Msg)
    (d : List (String × JVal))
    (hname : hashableJVal (decisionTName d) = true) :
    (∀ h a, loopStep tools toolO hist (jobj d) = .ok (.finalAns h a) → h = hist) ∧
    (∀ h, loopStep tools toolO hist (jobj d) = .ok (.next h) →
      ∃ am um, h = hist ++ [am, um] ∧ am.role = "assistant" ∧ um.role = "user") ∧
    (∀ e, loopStep tools toolO hist (jobj d) ≠ .error e) := by
  by_cases hf : isFinalDecision d = true
  · refine ⟨?_, ?_, ?_⟩
    · intro h a he
      simp only [loopStep, hf, if_true] at he
      injection he with he1
      injection he1 with h1 h2
      exact h1.symm
    · intro h he
      simp only [loopStep, hf, if_true] at he
      injection he with he1
      exact StepOut.noConfusion he1
    · intro e he
      simp only [loopStep, hf, if_true] at he
      exact Except.noConfusion he
  · have hred := loopStep_jobj_nonfinal_hashable tools toolO hist d
      (by simpa using hf) hname
    refine ⟨?_, ?_, ?_⟩
    · intro h a he
      rw [hred] at he
      injection he with he1
      exact StepOut.noConfusion he1
    · intro h he
      rw [hred] at he
      injection he with he1
      injection he1 with h1
      refine ⟨_, _, h1.symm, rfl, ?_⟩
      cases registeredName tools (decisionTName d) <;> rfl
    · intro e he
      rw [hred] at he
      exact Except.noConfusion he

/-- C6 witness: an unknown-tool decision (string action) grows a
one-message history by exactly an assistant message and a user message. -/
theorem C6_witness :
    ∃ am um,
      [(⟨"user", "hi"⟩ : Msg), ⟨"assistant", "\x7b\"action\": \"go\"\x7d"⟩,
        ⟨"user", "Tool \x27go\x27 does not exist. Available tools: []. Please use a valid tool or produce a final answer."⟩] =
        [(⟨"user", "hi"⟩ : Msg)] ++ [am, um] ∧
        am.role = "assistant" ∧ um.role = "user" :=
  (C6_history_grows_by_two [] (fun _ _ => .payload "") [⟨"user", "hi"⟩]
    [("action", jstr "go")] (by decide)).2.1 _ (by decide)

/-! Claim C8 -/

/-- C8: when the decision names a registered tool and that tool invocation
raises, the loop does not terminate or propagate: it appends the decision
and the error-shaped observation `Result of <tool>: {"error": <message>}`
to the history and continues to the next step. -/
theorem C8_tool_exception_appends_error_observation (tools : List String)
    (toolO : String → JVal → ToolOutcome) (hist : List Msg)
    (d : List (String × JVal)) (s msg : String)
    (hact : dictLookup d "action" = some (jstr s))
    (hnf : s ≠ "final")
    (hreg : tools.contains s = true)
    (hexc : toolO s (decisionArgs d) = .raises msg) :
    loopStep tools toolO hist (jobj d) =
      .ok (.next (hist ++
        [⟨"assistant", dumps (jobj d)⟩,
         ⟨"user", "Result of " ++ s ++ ": " ++
            dumps (jobj [("error", jstr msg)])⟩])) := by
  have hfin : isFinalDecision d = false := by
    simp [isFinalDecision, hact, jvalBeq, hnf]
  have htn : decisionTName d = jstr s := by
    simp [decisionTName, hact]
  have hrn : registeredName tools (jstr s) = some s := by
    simp only [registeredName]
    rw [if_pos hreg]
  simp [loopStep, hfin, htn, hrn, toolPayload, hexc, mkAssistantMsg, mkToolResultMsg]

/-- C8 witness: a registered tool raising an exception yields the two
appended messages with the dumped error payload, and the loop continues. -/
theorem C8_witness :
    loopStep ["boom"] (fun _ _ => .raises "kaboom") []
        (jobj [("action", jstr "boom")]) =
      .ok (.next [⟨"assistant", "\x7b\"action\": \"boom\"\x7d"⟩,
             ⟨"user", "Result of boom: \x7b\"error\": \"kaboom\"\x7d"⟩]) := by
  rw [C8_tool_exception_appends_error_observation ["boom"]
    (fun _ _ => .raises "kaboom") [] [("action", jstr "boom")] "boom" "kaboom"
    rfl (by decide) (by decide) rfl]
  decide

/-! Claim C7 -/

theorem scanFrom_leftmost (p : Nat) : ∀ (cs : List Char) (v : JVal),
    candParse (cs.drop p) = some v →
    (∀ q, q < p → candParse (cs.drop q) = none) →
    scanFrom cs = some v := by
  induction p with
  | zero =>
    intro cs v h1 _h2
    rw [List.drop_zero] at h1
    cases cs with
    | nil => simp [candParse] at h1
    | cons c rest =>
      simp only [scanFrom]
      rw [h1]
  | succ p ih =>
    intro cs v h1 h2
    cases cs with
    | nil =>
      rw [List.drop_nil] at h1
      simp [candParse] at h1
    | cons c rest =>
      have h0 := h2 0 (Nat.succ_pos p)
      rw [List.drop_zero] at h0
      simp only [scanFrom]
      rw [h0]
      exact ih rest v (by simpa using h1) (fun q hq => by
        have := h2 (q + 1) (by omega)
        simpa using this)

/-- C7 counterexample: the four-character text consisting of a quote, an
opening brace, a closing brace and a quote contains exactly one balanced
brace substring that parses as JSON — the empty object at position 1 — yet
the decoder returns the whole text parsed as the JSON string of two braces,
because the direct-parse stage preempts the brace scan. -/
theorem C7_counterexample_direct_parse_preempts_scan :
    candParse ((pyStripChars ("\"\x7b\x7d\"" : String).data).drop 1) =
      some (jobj []) ∧
    ((List.range 4).all fun q =>
      decide (q = 1) ||
        (candParse ((pyStripChars ("\"\x7b\x7d\"" : String).data).drop q)).isNone) =
      true ∧
    extract_json "\"\x7b\x7d\"" = jstr "\x7b\x7d" ∧
    jstr "\x7b\x7d" ≠ jobj [] := by
  refine ⟨by decide, by decide, by decide, by decide⟩

/-- C7 amended: the brace-scanning stage tries start positions left to
right and returns the first balanced-brace substring that parses as JSON —
and the decoder as a whole returns that object provided the direct-parse
and fenced-block stages have yielded nothing. -/
theorem C7_scan_returns_first_balanced_parse (t : String) (p : Nat) (v : JVal)
    (h1 : jsonLoadsChars (pyStripChars t.data) = none)
    (h2 : fenceResult (pyStripChars t.data) = none)
    (h3 : candParse ((pyStripChars t.data).drop p) = some v)
    (h4 : ∀ q, q < p → candParse ((pyStripChars t.data).drop q) = none) :
    extract_json t = v := by
  unfold extract_json
  rw [h1, h2, scanFrom_leftmost p (pyStripChars t.data) v h3 h4]

/-- C7 witness: prose around a single JSON object is decoded to exactly
that object by the brace scan. -/
theorem C7_witness :
    extract_json "note \x7b\"a\": 1\x7d end" = jobj [("a", jint 1)] :=
  C7_scan_returns_first_balanced_parse "note \x7b\"a\": 1\x7d end" 5
    (jobj [("a", jint 1)]) (by decide) (by decide) (by decide) (by decide)

/-! Claim C9 -/

theorem mkPick_eq_spec (d : JVal) (hd : DocOK d) : mkPick d = .ok (specBookEntry d) := by
  obtain ⟨f, rfl, hauth, hkey⟩ := hd
  rcases hkey with hk | ⟨k, hk⟩
  · rcases hauth with ha | ha | ⟨l, ha⟩
    · simp [mkPick, specBookEntry, ha, hk, pyTruthy, pySubZero]
    · simp [mkPick, specBookEntry, ha, hk, pyTruthy, pySubZero]
    · cases l with
      | nil => simp [mkPick, specBookEntry, ha, hk, pyTruthy, pySubZero]
      | cons a as => simp [mkPick, specBookEntry, ha, hk, pyTruthy, pySubZero]
  · rcases hauth with ha | ha | ⟨l, ha⟩
    · simp [mkPick, specBookEntry, ha, hk, pyTruthy, pySubZero]
    · simp [mkPick, specBookEntry, ha, hk, pyTruthy, pySubZero]
    · cases l with
      | nil => simp [mkPick, specBookEntry, ha, hk, pyTruthy, pySubZero]
      | cons a as => simp [mkPick, specBookEntry, ha, hk, pyTruthy, pySubZero]

theorem buildPicks_eq_spec : ∀ (ds : List JVal), (∀ d ∈ ds, DocOK d) →
    buildPicks ds = .ok (ds.map specBookEntry)
  | [], _ => rfl
  | d :: rest, h => by
    simp only [buildPicks]
    rw [mkPick_eq_spec d (h d (List.mem_cons_self d rest))]
    rw [buildPicks_eq_spec rest (fun x hx => h x (List.mem_cons_of_mem d hx))]
    rfl

/-- C9 counterexample: nothing in the code truncates the picks to `limit` —
for the request issued with limit 1, an upstream response carrying two docs
produces two returned entries, violating "at most limit book entries". -/
theorem C9_counterexample_no_truncation :
    book_recs "t" (jobj [("docs", jarr [jobj [], jobj []])]) =
      .ok (jobj [("topic", jstr "t"), ("results", jarr
        [jobj [("title", jnull), ("author", jstr "Unknown"), ("year", jnull),
               ("link", jstr "https://openlibrary.org")],
         jobj [("title", jnull), ("author", jstr "Unknown"), ("year", jnull),
               ("link", jstr "https://openlibrary.org")]])]) ∧
    ¬ (2 ≤ 1) := by
  refine ⟨by decide, by decide⟩

/-- C9 amended: book_recs returns exactly one entry per upstream doc — so
at most `limit` entries exactly when the upstream honours the forwarded
`limit` parameter — and each entry carries the title, the first author or
"Unknown" when none is listed, the publish year and the link, as captured
by `specBookEntry`. -/
theorem C9_one_entry_per_doc (topic : String) (limit : Nat)
    (flds : List (String × JVal)) (ds : List JVal)
    (hdocs : dictLookup flds "docs" = some (jarr ds))
    (hok : ∀ d ∈ ds, DocOK d) :
    book_recs topic (jobj flds) =
      .ok (jobj [("topic", jstr topic), ("results", jarr (ds.map specBookEntry))]) ∧
    (ds.map specBookEntry).length = ds.length ∧
    (ds.length ≤ limit → (ds.map specBookEntry).length ≤ limit) := by
  refine ⟨?_, by simp, by simp⟩
  have hattr : pyGetAttr (jobj flds) "docs" (jarr []) = .ok (jarr ds) := by
    simp [pyGetAttr, hdocs]
  unfold book_recs
  rw [hattr]
  simp [buildPicks_eq_spec ds hok]

/-- C9 witness: a single well-formed doc yields the single expected entry. -/
theorem C9_witness :
    book_recs "scifi" (jobj [("docs", jarr [jobj [("title", jstr "Dune"),
        ("author_name", jarr [jstr "Frank Herbert"]),
        ("first_publish_year", jint 1965), ("key", jstr "/works/OW")]])]) =
      .ok (jobj [("topic", jstr "scifi"), ("results", jarr
        ([jobj [("title", jstr "Dune"), ("author_name", jarr [jstr "Frank Herbert"]),
          ("first_publish_year", jint 1965), ("key", jstr "/works/OW")]].map
            specBookEntry))]) :=
  (C9_one_entry_per_doc "scifi" 5 _ _ (by decide) (by
    intro d hd
    simp only [List.mem_singleton] at hd
    subst hd
    exact ⟨_, rfl, Or.inr (Or.inr ⟨[jstr "Frank Herbert"], by decide⟩),
      Or.inr ⟨"/works/OW", by decide⟩⟩)).1

/-! Claim C10 -/

theorem pyUnescape_str_ok (u : String → String) (s : String) :
    ∃ s', pyUnescape u (jstr s) = .ok (jstr s') := by
  cases h : strInfixChars ("&" : String).data s.data with
  | false => exact ⟨s, by simp [pyUnescape, pyContains, h]⟩
  | true => exact ⟨u s, by simp [pyUnescape, pyContains, h]⟩

theorem trivia_jobj_eq (u : String → String) (flds : List (String × JVal)) :
    trivia u (jobj flds) =
      (if pyTruthy ((dictLookup flds "results").getD (jarr [])) = false
       then .ok triviaErrPayload
       else
         match pySubZero ((dictLookup flds "results").getD (jarr [])) with
         | .error e => .error e
         | .ok q => triviaFirst u q) := rfl

theorem triviaFirst_ne_payload (u : String → String) (q : JVal) :
    triviaFirst u q ≠ .ok triviaErrPayload := by
  cases q with
  | jnull => simp [triviaFirst, pyGetItem]
  | jbool b => simp [triviaFirst, pyGetItem]
  | jint n => simp [triviaFirst, pyGetItem]
  | jfloat l => simp [triviaFirst, pyGetItem]
  | jstr s => simp [triviaFirst, pyGetItem]
  | jarr xs => simp [triviaFirst, pyGetItem]
  | jobj f =>
    cases hq : dictLookup f "question" with
    | none => simp [triviaFirst, pyGetItem, hq]
    | some qv =>
      cases hu : pyUnescape u qv with
      | error e => simp [triviaFirst, pyGetItem, hq, hu]
      | ok qv' =>
        cases hc : dictLookup (insertOrReplace f "question" qv') "correct_answer" with
        | none => simp [triviaFirst, pyGetItem, pySetItem, hq, hu, hc]
        | some cv =>
          cases hu2 : pyUnescape u cv with
          | error e => simp [triviaFirst, pyGetItem, pySetItem, hq, hu, hc, hu2]
          | ok cv' =>
            cases hi : dictLookup (insertOrReplace
                (insertOrReplace f "question" qv') "correct_answer" cv')
                "incorrect_answers" with
            | none => simp [triviaFirst, pyGetItem, pySetItem, hq, hu, hc, hu2, hi]
            | some iv =>
              cases hcomp : unescapeComp u iv with
              | error e =>
                simp [triviaFirst, pyGetItem, pySetItem, hq, hu, hc, hu2, hi, hcomp]
              | ok iv' =>
                simp only [triviaFirst, pyGetItem, pySetItem, hq, hu, hc, hu2, hi, hcomp]
                intro hcontra
                injection hcontra with h1
                have h2 : dictLookup (insertOrReplace (insertOrReplace
                    (insertOrReplace f "question" qv') "correct_answer" cv')
                    "incorrect_answers" iv') "question" = some qv' := by
                  rw [dictLookup_insertOrReplace, if_neg (by decide),
                    dictLookup_insertOrReplace, if_neg (by decide),
                    dictLookup_insertOrReplace, if_pos rfl]
                simp only [triviaErrPayload] at h1
                injection h1 with h3
                rw [h3] at h2
                simp [dictLookup] at h2

theorem triviaFirst_keyerror (u : String → String) (f : List (String × JVal))
    (hcase : dictLookup f "question" = none ∨
      (∃ s, dictLookup f "question" = some (jstr s) ∧
        dictLookup f "correct_answer" = none) ∨
      (∃ s c, dictLookup f "question" = some (jstr s) ∧
        dictLookup f "correct_answer" = some (jstr c) ∧
        dictLookup f "incorrect_answers" = none)) :
    ∃ k, triviaFirst u (jobj f) = .error (.keyError k) := by
  rcases hcase with h | ⟨s, hq, hc⟩ | ⟨s, c, hq, hc, hi⟩
  · exact ⟨"question", by simp [triviaFirst, pyGetItem, h]⟩
  · obtain ⟨s', hs'⟩ := pyUnescape_str_ok u s
    have hc1 : dictLookup (insertOrReplace f "question" (jstr s'))
        "correct_answer" = none := by
      rw [dictLookup_insertOrReplace, if_neg (by decide)]
      exact hc
    exact ⟨"correct_answer", by
      simp [triviaFirst, pyGetItem, pySetItem, hq, hs', hc1]⟩
  · obtain ⟨s', hs'⟩ := pyUnescape_str_ok u s
    obtain ⟨c', hcs'⟩ := pyUnescape_str_ok u c
    have hc1 : dictLookup (insertOrReplace f "question" (jstr s'))
        "correct_answer" = some (jstr c) := by
      rw [dictLookup_insertOrReplace, if_neg (by decide)]
      exact hc
    have hi1 : dictLookup (insertOrReplace (insertOrReplace f "question" (jstr s'))
        "correct_answer" (jstr c')) "incorrect_answers" = none := by
      rw [dictLookup_insertOrReplace, if_neg (by decide),
        dictLookup_insertOrReplace, if_neg (by decide)]
      exact hi
    exact ⟨"incorrect_answers", by
      simp [triviaFirst, pyGetItem, pySetItem, hq, hs', hc1, hcs', hi1]⟩

/-- C10: the trivia tool returns its domain error payload exactly when the
upstream results value is falsy (in particular the empty list); when the
results list is non-empty, the payload is never returned, and a first
entry missing one of the question / correct_answer / incorrect_answers
keys (earlier ones present as strings) makes the tool raise KeyError. -/
theorem C10_trivia_error_payload_only_when_empty (unescape : String → String)
    (flds : List (String × JVal)) :
    (pyTruthy ((dictLookup flds "results").getD (jarr [])) = false →
      trivia unescape (jobj flds) = .ok triviaErrPayload) ∧
    (pyTruthy ((dictLookup flds "results").getD (jarr [])) = true →
      trivia unescape (jobj flds) ≠ .ok triviaErrPayload) ∧
    (∀ f rest, (dictLookup flds "results").getD (jarr []) = jarr (jobj f :: rest) →
      (dictLookup f "question" = none ∨
        (∃ s, dictLookup f "question" = some (jstr s) ∧
          dictLookup f "correct_answer" = none) ∨
        (∃ s c, dictLookup f "question" = some (jstr s) ∧
          dictLookup f "correct_answer" = some (jstr c) ∧
          dictLookup f "incorrect_answers" = none)) →
      ∃ k, trivia unescape (jobj flds) = .error (.keyError k)) := by
  refine ⟨?_, ?_, ?_⟩
  · intro h
    rw [trivia_jobj_eq, if_pos h]
  · intro h
    rw [trivia_jobj_eq, if_neg (by simp [h])]
    generalize (dictLookup flds "results").getD (jarr []) = data
    cases data with
    | jnull => simp [pySubZero]
    | jbool b => simp [pySubZero]
    | jint n => simp [pySubZero]
    | jfloat l => simp [pySubZero]
    | jstr s =>
      cases hs : s.data with
      | nil => simp [pySubZero, hs]
      | cons c cs =>
        simp only [pySubZero, hs]
        exact triviaFirst_ne_payload unescape _
    | jarr xs =>
      cases xs with
      | nil => simp [pySubZero]
      | cons q rest =>
        simp only [pySubZero]
        exact triviaFirst_ne_payload unescape q
    | jobj fs => simp [pySubZero]
  · intro f rest hD hcase
    rw [trivia_jobj_eq, hD, if_neg (by simp [pyTruthy])]
    simp only [pySubZero]
    exact triviaFirst_keyerror unescape f hcase

/-- C10 witness: an empty response yields the payload; a first entry with
only a question raises a KeyError. -/
theorem C10_witness :
    trivia id (jobj []) = .ok triviaErrPayload ∧
    (∃ k, trivia id (jobj [("results", jarr [jobj [("question", jstr "Q")]])]) =
      .error (.keyError k)) :=
  ⟨(C10_trivia_error_payload_only_when_empty id []).1 (by decide),
   (C10_trivia_error_payload_only_when_empty id
      [("results", jarr [jobj [("question", jstr "Q")]])]).2.2
      [("question", jstr "Q")] [] (by decide)
      (Or.inr (Or.inl ⟨"Q", by decide, by decide⟩))⟩

end WeekendWizard

